import Mathlib

/-!
Verification of the commission models in `zipline/finance/commission.py`
(`PerShare`, `OrderCost`, `PerTrade`, `PerDollar`).

Numbers are modelled as rationals.  Python operations that can raise are
modelled with `Option` / `Except`: float division by zero raises
`ZeroDivisionError` in Python, so division is the fallible `divQ`; the
`__setstate__` methods can raise, so they return `Except String`.

The persisted state mapping (`__getstate__` / `__setstate__`) is modelled as
an association list from field names to values (`StVal`), mirroring the
Python dict with its insertion order.
-/

/-- A transaction, the external input of every `calculate` method: a signed
quantity and an execution price. -/
structure Transaction where
  amount : ℚ
  price : ℚ
deriving DecidableEq

/-- Python division, which raises `ZeroDivisionError` on a zero divisor. -/
def divQ (a b : ℚ) : Option ℚ :=
  if b = 0 then none else some (a / b)

/-- Values that appear in a persisted state mapping: a number, or an
optional number (the type of `PerShare.min_trade_cost`, which may be
Python's `None`). -/
inductive StVal where
  | num (q : ℚ)
  | onum (o : Option ℚ)
deriving DecidableEq

/-- Modelled from the spec: the reserved key `VERSION_LABEL` is imported from
`zipline.utils.serialization_utils`, which is not part of this fragment; the
spec only requires a single reserved key holding the integer version stamp.
Its concrete spelling is irrelevant to every property below, except that it
starts with an underscore and hence differs from every public field name. -/
def VERSION_LABEL : String := "_stateversion_"

/-- `PerShare`: per-share cost with an optional minimum cost per trade. -/
structure PerShare where
  cost : ℚ
  min_trade_cost : Option ℚ
deriving DecidableEq

/-- `PerShare.calculate`: `commission = abs(amount * cost)`; without a
minimum returns `(cost, commission)`; with a minimum, floors the commission
and divides by `amount` (raising `ZeroDivisionError` when `amount == 0`,
hence the `Option`). -/
def PerShare.calculate (m : PerShare) (t : Transaction) : Option (ℚ × ℚ) :=
  let commission := |t.amount * m.cost|
  match m.min_trade_cost with
  | none => some (m.cost, commission)
  | some mtc =>
      let floored := max commission mtc
      (divQ floored t.amount).map fun q => (|q|, floored)

/-- `PerShare.__getstate__`: the public fields in insertion order, plus the
version label mapped to the stamp `1`. -/
def PerShare.getstate (m : PerShare) : List (String × StVal) :=
  [("cost", .num m.cost), ("min_trade_cost", .onum m.min_trade_cost),
   (VERSION_LABEL, .num 1)]

/-- `self.__dict__.update(state)` for `PerShare`: each entry of the mapping
overwrites the field of the same name; other entries do not touch the
configuration fields. -/
def PerShare.applyState (m : PerShare) (st : List (String × StVal)) : PerShare :=
  st.foldl (fun acc kv =>
    match kv with
    | ("cost", .num q) => { acc with cost := q }
    | ("min_trade_cost", .onum o) => { acc with min_trade_cost := o }
    | ("min_trade_cost", .num q) => { acc with min_trade_cost := some q }
    | _ => acc) m

/-- `PerShare.__setstate__`: pops the version label (a missing key is a
`KeyError`, a non-numeric stamp a `TypeError`), rejects stamps below the
oldest supported version `1`, and otherwise updates the fields from the
remaining mapping. -/
def PerShare.setstate (m : PerShare) (st : List (String × StVal)) :
    Except String PerShare :=
  match st.lookup VERSION_LABEL with
  | none => .error "KeyError"
  | some (.onum _) => .error "TypeError"
  | some (.num v) =>
      if v < 1 then .error "PerShare saved state is too old."
      else .ok (m.applyState (st.filter fun kv => kv.1 ≠ VERSION_LABEL))

/-- `OrderCost` (the spec's OpenCloseCost): open/close commissions and
taxes.  `close_today_commission` and `min_commission` are stored but never
read by `calculate`. -/
structure OrderCost where
  open_tax : ℚ
  close_tax : ℚ
  open_commission : ℚ
  close_commission : ℚ
  close_today_commission : ℚ
  min_commission : ℚ
deriving DecidableEq

/-- `OrderCost.calculate`: zero amount is free; a buy pays
`price * open_commission` per unit; a sell pays
`price * (close_commission + close_tax)` per unit. -/
def OrderCost.calculate (m : OrderCost) (t : Transaction) : ℚ × ℚ :=
  if t.amount = 0 then (0, 0)
  else if t.amount > 0 then
    (t.price * m.open_commission, t.price * m.open_commission * t.amount)
  else
    (t.price * (m.close_commission + m.close_tax),
     t.price * (m.close_commission + m.close_tax) * |t.amount|)

/-- `OrderCost.__getstate__`: the six public fields in insertion order, plus
the version label mapped to the stamp `1`. -/
def OrderCost.getstate (m : OrderCost) : List (String × StVal) :=
  [("open_tax", .num m.open_tax), ("close_tax", .num m.close_tax),
   ("open_commission", .num m.open_commission),
   ("close_commission", .num m.close_commission),
   ("close_today_commission", .num m.close_today_commission),
   ("min_commission", .num m.min_commission),
   (VERSION_LABEL, .num 1)]

/-- `self.__dict__.update(state)` for `OrderCost`. -/
def OrderCost.applyState (m : OrderCost) (st : List (String × StVal)) : OrderCost :=
  st.foldl (fun acc kv =>
    match kv with
    | ("open_tax", .num q) => { acc with open_tax := q }
    | ("close_tax", .num q) => { acc with close_tax := q }
    | ("open_commission", .num q) => { acc with open_commission := q }
    | ("close_commission", .num q) => { acc with close_commission := q }
    | ("close_today_commission", .num q) => { acc with close_today_commission := q }
    | ("min_commission", .num q) => { acc with min_commission := q }
    | _ => acc) m

/-- `OrderCost.__setstate__`; note the source raises with the message
"PerTrade saved state is too old." (a copy of `PerTrade`'s message). -/
def OrderCost.setstate (m : OrderCost) (st : List (String × StVal)) :
    Except String OrderCost :=
  match st.lookup VERSION_LABEL with
  | none => .error "KeyError"
  | some (.onum _) => .error "TypeError"
  | some (.num v) =>
      if v < 1 then .error "PerTrade saved state is too old."
      else .ok (m.applyState (st.filter fun kv => kv.1 ≠ VERSION_LABEL))

/-- `PerTrade`: a flat cost per trade. -/
structure PerTrade where
  cost : ℚ
deriving DecidableEq

/-- `PerTrade.calculate`: zero amount is free; otherwise
`(abs(cost / amount), cost)` (the division is guarded by the zero check). -/
def PerTrade.calculate (m : PerTrade) (t : Transaction) : Option (ℚ × ℚ) :=
  if t.amount = 0 then some (0, 0)
  else (divQ m.cost t.amount).map fun q => (|q|, m.cost)

/-- `PerTrade.__getstate__`. -/
def PerTrade.getstate (m : PerTrade) : List (String × StVal) :=
  [("cost", .num m.cost), (VERSION_LABEL, .num 1)]

/-- `self.__dict__.update(state)` for `PerTrade`. -/
def PerTrade.applyState (m : PerTrade) (st : List (String × StVal)) : PerTrade :=
  st.foldl (fun acc kv =>
    match kv with
    | ("cost", .num q) => { acc with cost := q }
    | _ => acc) m

/-- `PerTrade.__setstate__`. -/
def PerTrade.setstate (m : PerTrade) (st : List (String × StVal)) :
    Except String PerTrade :=
  match st.lookup VERSION_LABEL with
  | none => .error "KeyError"
  | some (.onum _) => .error "TypeError"
  | some (.num v) =>
      if v < 1 then .error "PerTrade saved state is too old."
      else .ok (m.applyState (st.filter fun kv => kv.1 ≠ VERSION_LABEL))

/-- `PerDollar`: a cost per dollar of transaction volume. -/
structure PerDollar where
  cost : ℚ
deriving DecidableEq

/-- `PerDollar.calculate`: `cost_per_share = price * cost`; returns
`(cost_per_share, abs(amount) * cost_per_share)`.  No fault path. -/
def PerDollar.calculate (m : PerDollar) (t : Transaction) : ℚ × ℚ :=
  let cost_per_share := t.price * m.cost
  (cost_per_share, |t.amount| * cost_per_share)

/-- `PerDollar.__getstate__`. -/
def PerDollar.getstate (m : PerDollar) : List (String × StVal) :=
  [("cost", .num m.cost), (VERSION_LABEL, .num 1)]

/-- `self.__dict__.update(state)` for `PerDollar`. -/
def PerDollar.applyState (m : PerDollar) (st : List (String × StVal)) : PerDollar :=
  st.foldl (fun acc kv =>
    match kv with
    | ("cost", .num q) => { acc with cost := q }
    | _ => acc) m

/-- `PerDollar.__setstate__`. -/
def PerDollar.setstate (m : PerDollar) (st : List (String × StVal)) :
    Except String PerDollar :=
  match st.lookup VERSION_LABEL with
  | none => .error "KeyError"
  | some (.onum _) => .error "TypeError"
  | some (.num v) =>
      if v < 1 then .error "PerDollar saved state is too old."
      else .ok (m.applyState (st.filter fun kv => kv.1 ≠ VERSION_LABEL))

/-- The total-cost component of a fallible `calculate` result (`0` when the
call faulted, i.e. returned nothing). -/
def totalOf : Option (ℚ × ℚ) → ℚ
  | none => 0
  | some p => p.2

/-- Claim C1: OrderCost.calculate returns (0,0) on a zero amount, buys pay
price * open_commission per unit and that times amount in total, and sells
pay price * (close_commission + close_tax) per unit and that times
abs(amount) in total. -/
theorem C1_orderCost_calculate (m : OrderCost) (t : Transaction) :
    (t.amount = 0 → m.calculate t = (0, 0)) ∧
    (0 < t.amount →
      m.calculate t =
        (t.price * m.open_commission, t.price * m.open_commission * t.amount)) ∧
    (t.amount < 0 →
      m.calculate t =
        (t.price * (m.close_commission + m.close_tax),
         t.price * (m.close_commission + m.close_tax) * |t.amount|)) := by
  refine ⟨fun h => ?_, fun h => ?_, fun h => ?_⟩
  · simp [OrderCost.calculate, h]
  · simp [OrderCost.calculate, h, h.ne']
  · simp [OrderCost.calculate, h, h.ne, lt_asymm h]

theorem C1_orderCost_calculate_witness :
    (0 : ℚ) < 100 ∧
    OrderCost.calculate ⟨0, 0.001, 0.003, 0.003, 0, 5⟩ ⟨100, 10⟩ =
      ((10 : ℚ) * 0.003, (10 : ℚ) * 0.003 * 100) :=
  ⟨by norm_num,
   (C1_orderCost_calculate ⟨0, 0.001, 0.003, 0.003, 0, 5⟩ ⟨100, 10⟩).2.1
     (by norm_num)⟩

/-- Claim C2: for PerShare on a transaction with nonzero amount, with
commission = abs(amount * cost): no minimum gives (cost, commission); a
minimum floors the commission and returns
(abs(floored / amount), floored). -/
theorem C2_perShare_calculate (m : PerShare) (t : Transaction)
    (h : t.amount ≠ 0) :
    (m.min_trade_cost = none →
      m.calculate t = some (m.cost, |t.amount * m.cost|)) ∧
    (∀ mtc, m.min_trade_cost = some mtc →
      m.calculate t =
        some (|max (|t.amount * m.cost|) mtc / t.amount|,
              max (|t.amount * m.cost|) mtc)) := by
  constructor
  · intro hm; simp [PerShare.calculate, hm]
  · intro mtc hm; simp [PerShare.calculate, hm, divQ, h]

theorem C2_perShare_calculate_witness :
    (100 : ℚ) ≠ 0 ∧
    PerShare.calculate ⟨0.03, some 5⟩ ⟨100, 1⟩ =
      some (|max (|(100 : ℚ) * 0.03|) 5 / 100|, max (|(100 : ℚ) * 0.03|) 5) :=
  ⟨by norm_num,
   (C2_perShare_calculate ⟨0.03, some 5⟩ ⟨100, 1⟩ (by norm_num)).2 5 rfl⟩

/-- Claim C3: PerTrade.calculate returns (0,0) on a zero amount and
(abs(cost / amount), cost) otherwise; in particular cost 5 at amount 50
gives (0.1, 5). -/
theorem C3_perTrade_calculate (m : PerTrade) (t : Transaction) :
    (t.amount = 0 → m.calculate t = some (0, 0)) ∧
    (t.amount ≠ 0 → m.calculate t = some (|m.cost / t.amount|, m.cost)) ∧
    PerTrade.calculate ⟨5⟩ ⟨50, 1⟩ = some (0.1, 5) := by
  refine ⟨fun h => ?_, fun h => ?_, ?_⟩
  · simp [PerTrade.calculate, h]
  · simp [PerTrade.calculate, h, divQ]
  · norm_num [PerTrade.calculate, divQ]

theorem C3_perTrade_calculate_witness :
    (50 : ℚ) ≠ 0 ∧
    PerTrade.calculate ⟨5⟩ ⟨50, 1⟩ = some (|(5 : ℚ) / 50|, 5) :=
  ⟨by norm_num, (C3_perTrade_calculate ⟨5⟩ ⟨50, 1⟩).2.1 (by norm_num)⟩

/-- Claim C4: PerDollar.calculate always returns
(price * cost, abs(amount) * price * cost); in particular cost 0.0015 at
amount -1000, price 10 gives (0.015, 15). -/
theorem C4_perDollar_calculate (m : PerDollar) (t : Transaction) :
    m.calculate t = (t.price * m.cost, |t.amount| * t.price * m.cost) ∧
    PerDollar.calculate ⟨0.0015⟩ ⟨-1000, 10⟩ = (0.015, 15) := by
  constructor
  · simp [PerDollar.calculate, mul_assoc]
  · norm_num [PerDollar.calculate]

/-- Claim C5, counterexample: a PerTrade instance with negative cost -1 on
the valid transaction (amount 1, price 1) returns a negative total cost, so
total_cost is not non-negative for every instance and valid transaction. -/
theorem C5_total_nonneg_counterexample :
    0 ≤ (Transaction.mk 1 1).price ∧
    totalOf (PerTrade.calculate ⟨-1⟩ ⟨1, 1⟩) < 0 := by
  constructor
  · norm_num
  · norm_num [PerTrade.calculate, divQ, totalOf]

/-- Claim C5, amended: for every variant and every transaction with
non-negative price, the total cost is non-negative, provided the cost-like
configuration fields that enter the formula with a positive sign
(PerTrade.cost, PerDollar.cost, OrderCost.open_commission,
OrderCost.close_commission, OrderCost.close_tax) are non-negative;
PerShare needs no such assumption. -/
theorem C5_total_nonneg (ps : PerShare) (pt : PerTrade) (pd : PerDollar)
    (oc : OrderCost) (t : Transaction) (hp : 0 ≤ t.price)
    (hpt : 0 ≤ pt.cost) (hpd : 0 ≤ pd.cost)
    (hoc : 0 ≤ oc.open_commission) (hcc : 0 ≤ oc.close_commission)
    (hct : 0 ≤ oc.close_tax) :
    0 ≤ totalOf (ps.calculate t) ∧ 0 ≤ totalOf (pt.calculate t) ∧
    0 ≤ (pd.calculate t).2 ∧ 0 ≤ (oc.calculate t).2 := by
  refine ⟨?_, ?_, ?_, ?_⟩
  · cases hm : ps.min_trade_cost with
    | none => simp [PerShare.calculate, hm, totalOf, abs_nonneg]
    | some mtc =>
        by_cases ha : t.amount = 0
        · simp [PerShare.calculate, hm, divQ, ha, totalOf]
        · simp only [PerShare.calculate, hm, divQ, if_neg ha, Option.map_some, totalOf]
          exact le_trans (abs_nonneg _) (le_max_left _ _)
  · by_cases ha : t.amount = 0
    · simp [PerTrade.calculate, ha, totalOf]
    · simp [PerTrade.calculate, ha, divQ, totalOf, hpt]
  · exact mul_nonneg (abs_nonneg _) (mul_nonneg hp hpd)
  · unfold OrderCost.calculate
    split_ifs with h1 h2
    · norm_num
    · exact mul_nonneg (mul_nonneg hp hoc) h2.le
    · exact mul_nonneg (mul_nonneg hp (add_nonneg hcc hct)) (abs_nonneg _)

theorem C5_total_nonneg_witness :
    0 ≤ (Transaction.mk (-100) 10).price ∧ 0 ≤ (PerTrade.mk 5).cost ∧
    0 ≤ (PerDollar.mk 0.0015).cost ∧
    0 ≤ (OrderCost.mk 0 0.001 0.003 0.003 0 5).open_commission ∧
    0 ≤ (OrderCost.mk 0 0.001 0.003 0.003 0 5).close_commission ∧
    0 ≤ (OrderCost.mk 0 0.001 0.003 0.003 0 5).close_tax ∧
    (0 ≤ totalOf (PerShare.calculate ⟨0.03, some 5⟩ ⟨-100, 10⟩) ∧
     0 ≤ totalOf (PerTrade.calculate ⟨5⟩ ⟨-100, 10⟩) ∧
     0 ≤ (PerDollar.calculate ⟨0.0015⟩ ⟨-100, 10⟩).2 ∧
     0 ≤ (OrderCost.calculate ⟨0, 0.001, 0.003, 0.003, 0, 5⟩ ⟨-100, 10⟩).2) :=
  ⟨by norm_num, by norm_num, by norm_num, by norm_num, by norm_num, by norm_num,
   C5_total_nonneg ⟨0.03, some 5⟩ ⟨5⟩ ⟨0.0015⟩ ⟨0, 0.001, 0.003, 0.003, 0, 5⟩
     ⟨-100, 10⟩ (by norm_num) (by norm_num) (by norm_num) (by norm_num)
     (by norm_num) (by norm_num)⟩

/-- Claim C6: for every variant, restoring any instance from the exported
state of an instance yields that instance exactly (identical configuration
fields), and hence calculate agrees with the original on every
transaction. -/
theorem C6_state_roundtrip (ps ps0 : PerShare) (pt pt0 : PerTrade)
    (pd pd0 : PerDollar) (oc oc0 : OrderCost) (t : Transaction) :
    ps0.setstate ps.getstate = .ok ps ∧
    pt0.setstate pt.getstate = .ok pt ∧
    pd0.setstate pd.getstate = .ok pd ∧
    oc0.setstate oc.getstate = .ok oc ∧
    (ps0.setstate ps.getstate).map (fun m => m.calculate t) =
      .ok (ps.calculate t) ∧
    (pt0.setstate pt.getstate).map (fun m => m.calculate t) =
      .ok (pt.calculate t) ∧
    (pd0.setstate pd.getstate).map (fun m => m.calculate t) =
      .ok (pd.calculate t) ∧
    (oc0.setstate oc.getstate).map (fun m => m.calculate t) =
      .ok (oc.calculate t) :=
  ⟨rfl, rfl, rfl, rfl, rfl, rfl, rfl, rfl⟩

/-- Claim C7: for every variant, importing a state mapping whose version
stamp is strictly below 1 yields the "saved state is too old" error (with
OrderCost raising PerTrade's message, as in the source) and produces no
restored instance, so the original instance is untouched. -/
theorem C7_setstate_too_old (ps : PerShare) (pt : PerTrade) (pd : PerDollar)
    (oc : OrderCost) (st : List (String × StVal)) (v : ℚ)
    (hv : st.lookup VERSION_LABEL = some (.num v)) (hlt : v < 1) :
    ps.setstate st = .error "PerShare saved state is too old." ∧
    pt.setstate st = .error "PerTrade saved state is too old." ∧
    pd.setstate st = .error "PerDollar saved state is too old." ∧
    oc.setstate st = .error "PerTrade saved state is too old." := by
  refine ⟨?_, ?_, ?_, ?_⟩ <;>
    simp [PerShare.setstate, PerTrade.setstate, PerDollar.setstate,
      OrderCost.setstate, hv, hlt]

theorem C7_setstate_too_old_witness :
    ([(VERSION_LABEL, StVal.num 0)].lookup VERSION_LABEL =
      some (StVal.num 0)) ∧ (0 : ℚ) < 1 ∧
    (PerShare.setstate ⟨0.03, none⟩ [(VERSION_LABEL, StVal.num 0)] =
      .error "PerShare saved state is too old." ∧
     PerTrade.setstate ⟨5⟩ [(VERSION_LABEL, StVal.num 0)] =
      .error "PerTrade saved state is too old." ∧
     PerDollar.setstate ⟨0.0015⟩ [(VERSION_LABEL, StVal.num 0)] =
      .error "PerDollar saved state is too old." ∧
     OrderCost.setstate ⟨0, 0.001, 0.003, 0.003, 0, 5⟩
        [(VERSION_LABEL, StVal.num 0)] =
      .error "PerTrade saved state is too old.") :=
  ⟨rfl, by norm_num,
   C7_setstate_too_old ⟨0.03, none⟩ ⟨5⟩ ⟨0.0015⟩ ⟨0, 0.001, 0.003, 0.003, 0, 5⟩
     [(VERSION_LABEL, StVal.num 0)] 0 rfl (by norm_num)⟩

/-- Claim C8: for every variant, the exported state's keys are exactly the
public configuration fields in order followed by the reserved version key,
each field key maps to the instance's field value, and the version key maps
to the stamp 1. -/
theorem C8_getstate_shape (ps : PerShare) (pt : PerTrade) (pd : PerDollar)
    (oc : OrderCost) :
    ps.getstate.map Prod.fst = ["cost", "min_trade_cost", VERSION_LABEL] ∧
    ps.getstate.lookup "cost" = some (.num ps.cost) ∧
    ps.getstate.lookup "min_trade_cost" = some (.onum ps.min_trade_cost) ∧
    ps.getstate.lookup VERSION_LABEL = some (.num 1) ∧
    pt.getstate.map Prod.fst = ["cost", VERSION_LABEL] ∧
    pt.getstate.lookup "cost" = some (.num pt.cost) ∧
    pt.getstate.lookup VERSION_LABEL = some (.num 1) ∧
    pd.getstate.map Prod.fst = ["cost", VERSION_LABEL] ∧
    pd.getstate.lookup "cost" = some (.num pd.cost) ∧
    pd.getstate.lookup VERSION_LABEL = some (.num 1) ∧
    oc.getstate.map Prod.fst =
      ["open_tax", "close_tax", "open_commission", "close_commission",
       "close_today_commission", "min_commission", VERSION_LABEL] ∧
    oc.getstate.lookup "open_tax" = some (.num oc.open_tax) ∧
    oc.getstate.lookup "close_tax" = some (.num oc.close_tax) ∧
    oc.getstate.lookup "open_commission" = some (.num oc.open_commission) ∧
    oc.getstate.lookup "close_commission" = some (.num oc.close_commission) ∧
    oc.getstate.lookup "close_today_commission" =
      some (.num oc.close_today_commission) ∧
    oc.getstate.lookup "min_commission" = some (.num oc.min_commission) ∧
    oc.getstate.lookup VERSION_LABEL = some (.num 1) :=
  ⟨rfl, rfl, rfl, rfl, rfl, rfl, rfl, rfl, rfl, rfl, rfl, rfl, rfl, rfl, rfl,
   rfl, rfl, rfl⟩

/-- Claim C9: PerShare.calculate faults (returns no result, the
division-by-zero error) exactly when a minimum trade cost is configured and
the transaction's amount is zero. -/
theorem C9_perShare_div_zero (m : PerShare) (t : Transaction) :
    m.calculate t = none ↔ m.min_trade_cost ≠ none ∧ t.amount = 0 := by
  cases hm : m.min_trade_cost with
  | none => simp [PerShare.calculate, hm]
  | some mtc =>
      by_cases ha : t.amount = 0 <;> simp [PerShare.calculate, hm, divQ, ha]

/-- Claim C10: OrderCost.calculate does not depend on open_tax,
close_today_commission or min_commission: two instances agreeing on
open_commission, close_commission and close_tax give the same result on
every transaction. -/
theorem C10_orderCost_unused (m1 m2 : OrderCost) (t : Transaction)
    (h1 : m1.open_commission = m2.open_commission)
    (h2 : m1.close_commission = m2.close_commission)
    (h3 : m1.close_tax = m2.close_tax) :
    m1.calculate t = m2.calculate t := by
  simp [OrderCost.calculate, h1, h2, h3]

theorem C10_orderCost_unused_witness :
    (OrderCost.mk 0 0.001 0.003 0.003 0 5).open_commission =
      (OrderCost.mk 1 0.001 0.003 0.003 2 7).open_commission ∧
    (OrderCost.mk 0 0.001 0.003 0.003 0 5).close_commission =
      (OrderCost.mk 1 0.001 0.003 0.003 2 7).close_commission ∧
    (OrderCost.mk 0 0.001 0.003 0.003 0 5).close_tax =
      (OrderCost.mk 1 0.001 0.003 0.003 2 7).close_tax ∧
    OrderCost.calculate ⟨0, 0.001, 0.003, 0.003, 0, 5⟩ ⟨-100, 10⟩ =
      OrderCost.calculate ⟨1, 0.001, 0.003, 0.003, 2, 7⟩ ⟨-100, 10⟩ :=
  ⟨rfl, rfl, rfl,
   C10_orderCost_unused ⟨0, 0.001, 0.003, 0.003, 0, 5⟩
     ⟨1, 0.001, 0.003, 0.003, 2, 7⟩ ⟨-100, 10⟩ rfl rfl rfl⟩
